import Mathlib

/-!
# Shallow embedding of the PixelPulse room playback engine

This file embeds the per-room playback state machine of
`src/server/routes.ts` (socket handlers `addToPlaylist`, `voteSong`,
`togglePlayPause`, `toggleShuffle`, `toggleLoop`, `reorderSongs`,
`nextSong`, `previousSong`, the `disconnect` handler and the
auto-advance `setInterval` body) into Lean, and proves or refutes the
frozen claims about it.

Modelling conventions:
* JS numbers holding wall-clock values (`Date.now()`, `playbackStartTime`,
  `pausedAt`) are modelled as rationals (`ℚ`); `Date.now()` is an explicit
  `now` argument to each operation that reads the clock.
* `currentSongIndex` is an `Int`, because the source can store `-1` in it
  (a `findIndex` miss flows through `|| 0` unchanged, since `-1` is truthy
  in JS).
* JS `Set<string>` is a duplicate-free `List String` manipulated only
  through `setHas`/`setAdd`/`setDelete`; `Map<string, Set<string>>` is an
  association list manipulated through `mapGet?`/`mapSet`/`mapDelete`.
* A track's `duration` is stored in the source as an `"M:SS"` string and
  parsed to seconds only inside the auto-advance timer; the embedding
  stores the parsed value `durationSeconds` directly (no claim depends on
  the textual parsing).
* `Math.random()` inside the Fisher-Yates shuffle is modelled by an
  explicit stream `rnd : Nat → Nat` of draws; at loop index `i` the source
  computes `j = Math.floor(Math.random() * (i + 1)) ∈ [0, i]`, modelled as
  `rnd i % (i + 1)`.
* Each handler returns its successor state together with a description of
  what it emitted (the broadcast payloads relevant to the claims).
-/

/-- A track descriptor, as stored in `roomState.playlist`. -/
structure Song where
  id : String
  title : String := ""
  durationSeconds : Nat := 0
deriving Repr, DecidableEq, Inhabited

/-- The per-room playback state (`roomStates` map values in the source). -/
structure RoomState where
  playlist : List Song
  currentSongIndex : Int
  isPlaying : Bool
  playbackStartTime : ℚ
  pausedAt : ℚ
  createdBy : String
  isShuffled : Bool
  isLooped : Bool
  originalPlaylist : List Song
deriving Repr, DecidableEq

/-- A room: playback state plus its listener registry (`roomListeners`,
keyed here by user id; its size is the listener count) and its vote
tallies (`songVotes`). -/
structure Room where
  state : RoomState
  listeners : List String
  votes : List (String × List String)
deriving Repr, DecidableEq

/-- Freshly initialized room state (room creation in the source). -/
def initialState (createdBy : String) : RoomState :=
  { playlist := []
    currentSongIndex := 0
    isPlaying := false
    playbackStartTime := 0
    pausedAt := 0
    createdBy := createdBy
    isShuffled := false
    isLooped := false
    originalPlaylist := [] }

/-- JS `Array.prototype.findIndex`: index of the first match, `-1` if none. -/
def jsFindIndex (p : Song → Bool) (l : List Song) : Int :=
  match l.findIdx? p with
  | some i => (i : Int)
  | none => -1

/-- JS `x || 0` applied to an integer: `0` is the only falsy integer, so
this is the identity on `Int` — in particular it does NOT turn `-1`
into `0`. Kept to mirror the source's `findIndex(...) || 0`. -/
def jsOrZero (x : Int) : Int :=
  if x = 0 then 0 else x

/-- JS `playlist[i]` for an integer index: `undefined` (here `none`) when
out of range, including negative indices. -/
def getSong? (l : List Song) (i : Int) : Option Song :=
  if 0 ≤ i then l.get? i.toNat else none

/-- JS optional-chained id comparison `song.id === currentSong?.id`:
false for every `song` when `currentSong` is `undefined`. -/
def sameId (cur : Option Song) (s : Song) : Bool :=
  match cur with
  | some c => s.id == c.id
  | none => false

/-- JS `Set.has`. -/
def setHas (s : List String) (x : String) : Bool :=
  s.contains x

/-- JS `Set.add` (no duplicate introduced). -/
def setAdd (s : List String) (x : String) : List String :=
  if s.contains x then s else s ++ [x]

/-- JS `Set.delete`. -/
def setDelete (s : List String) (x : String) : List String :=
  s.filter (fun y => y != x)

/-- JS `Map.get` on an association list. -/
def mapGet? (m : List (String × List String)) (k : String) : Option (List String) :=
  (m.find? (fun p => p.1 == k)).map (fun p => p.2)

/-- JS `Map.set` on an association list. -/
def mapSet (m : List (String × List String)) (k : String) (v : List String) :
    List (String × List String) :=
  if (m.find? (fun p => p.1 == k)).isSome then
    m.map (fun p => if p.1 == k then (k, v) else p)
  else
    m ++ [(k, v)]

/-- JS `Map.delete` on an association list. -/
def mapDelete (m : List (String × List String)) (k : String) :
    List (String × List String) :=
  m.filter (fun p => p.1 != k)

/-- `Math.ceil(totalListeners / 2)` for a natural listener count. -/
def requiredVotes (totalListeners : Nat) : Nat :=
  (totalListeners + 1) / 2

/-- The ids of the tracks of a playlist, in order. -/
def playlistIds (l : List Song) : List String :=
  l.map (fun s => s.id)

/-- What the `addToPlaylist` handler emitted: either the
`'Song already in playlist'` error to the sender, or a `playlistUpdate`
broadcast carrying the given `preserveAudioState` flag. -/
inductive AddEmit where
  | duplicateError
  | broadcast (preserveAudioState : Bool)
deriving Repr, DecidableEq

/-- The `addToPlaylist` socket handler (routes.ts lines 303-346). -/
def addToPlaylist (song : Song) (now : ℚ) (room : Room) : Room × AddEmit :=
  if room.state.playlist.any (fun s => s.id == song.id) then
    (room, AddEmit.duplicateError)
  else
    let st := room.state
    let st := { st with
      playlist := st.playlist ++ [song]
      originalPlaylist := st.originalPlaylist ++ [song] }
    let votes := mapSet room.votes song.id []
    let st :=
      if st.playlist.length == 1 && !st.isPlaying then
        { st with
          currentSongIndex := 0
          isPlaying := true
          playbackStartTime := now
          pausedAt := 0 }
      else st
    ({ room with state := st, votes := votes }, AddEmit.broadcast true)

/-- The `voteUpdate` payload emitted at the end of every non-early-returned
`voteSong` call. -/
structure VoteUpdate where
  songId : String
  votes : Nat
  required : Nat
  hasVoted : Bool
deriving Repr, DecidableEq

/-- What the `voteSong` handler emitted: whether a full `playlistUpdate`
broadcast went out (it does exactly on removal), and the `voteUpdate`
payload (absent only on the early returns). -/
structure VoteEmit where
  removalBroadcast : Bool
  voteUpdate : Option VoteUpdate
deriving Repr, DecidableEq

/-- The vote toggle of the `voteSong` handler: remove the voter if
present, add them otherwise. -/
def toggledVotes (vs : List String) (userId : String) : List String :=
  if setHas vs userId then setDelete vs userId else setAdd vs userId

/-- The `voteSong` socket handler (routes.ts lines 349-403). The room and
user are assumed to exist (the handler's early `return` otherwise). Note
that on removal the track is spliced out of `playlist` only — NOT out of
`originalPlaylist` — and the tally is discarded; the cursor is
decremented only when the removed index is at or before it and the
cursor is positive. -/
def voteSong (userId songId : String) (room : Room) : Room × VoteEmit :=
  match mapGet? room.votes songId with
  | none => (room, ⟨false, none⟩)
  | some vs =>
    let totalListeners := room.listeners.length
    let required := requiredVotes totalListeners
    let vs2 := toggledVotes vs userId
    let room := { room with votes := mapSet room.votes songId vs2 }
    let update : VoteUpdate :=
      ⟨songId, vs2.length, required, setHas vs2 userId⟩
    if vs2.length ≥ required then
      let st := room.state
      match st.playlist.findIdx? (fun s => s.id == songId) with
      | some i =>
        let st := { st with
          playlist := st.playlist.eraseIdx i
          currentSongIndex :=
            if (i : Int) ≤ st.currentSongIndex ∧ st.currentSongIndex > 0 then
              st.currentSongIndex - 1
            else st.currentSongIndex }
        ({ room with state := st, votes := mapDelete room.votes songId },
          ⟨true, some update⟩)
      | none => (room, ⟨false, some update⟩)
    else
      (room, ⟨false, some update⟩)

/-- The `togglePlayPause` socket handler (routes.ts lines 406-434): a
silent no-op unless the requester is the room creator and the room is
not the system room; pausing folds `(now - playbackStartTime) / 1000`
seconds into `pausedAt`, resuming stamps `playbackStartTime := now`.
The returned `Bool` records whether a `playlistUpdate` broadcast went
out. -/
def togglePlayPause (userId : String) (now : ℚ) (room : Room) : Room × Bool :=
  let st := room.state
  if st.createdBy != userId || st.createdBy == "system" then
    (room, false)
  else
    let st := { st with isPlaying := !st.isPlaying }
    let st :=
      if st.isPlaying then
        { st with playbackStartTime := now }
      else
        { st with pausedAt := st.pausedAt + (now - st.playbackStartTime) / 1000 }
    ({ room with state := st }, true)

/-- One step of the Fisher-Yates loop of `toggleShuffle`: the source swaps
`shuffled[i]` and `shuffled[j]` via destructuring (both reads use the
pre-swap array). -/
def jsSwap (a : Array Song) (i j : Nat) : Array Song :=
  (a.set! i (a.get! j)).set! j (a.get! i)

/-- The Fisher-Yates loop `for (let i = len - 1; i > 0; i--)` of
`toggleShuffle`, counting `i` down to `1`. -/
def fyAux (rnd : Nat → Nat) : Nat → Array Song → Array Song
  | 0, a => a
  | Nat.succ i, a => fyAux rnd i (jsSwap a (i + 1) (rnd (i + 1) % (i + 2)))

/-- The full Fisher-Yates shuffle of `toggleShuffle`, with the random
draws supplied by `rnd`. -/
def fisherYates (rnd : Nat → Nat) (l : List Song) : List Song :=
  (fyAux rnd (l.length - 1) l.toArray).toList

/-- The `toggleShuffle` socket handler (routes.ts lines 492-532).
Authority: silently ignored unless the room is the system room or the
requester is the creator. Enabling shuffles a copy of `playlist`
(leaving `originalPlaylist` untouched) and relocates the cursor with
`findIndex(...) || 0`; disabling restores `playlist` from
`originalPlaylist` and relocates the cursor the same way. -/
def toggleShuffle (userId : String) (rnd : Nat → Nat) (room : Room) : Room × Bool :=
  let st := room.state
  if st.createdBy != "system" && st.createdBy != userId then
    (room, false)
  else
    let st := { st with isShuffled := !st.isShuffled }
    let st :=
      if st.isShuffled then
        let currentSong := getSong? st.playlist st.currentSongIndex
        let shuffled := fisherYates rnd st.playlist
        { st with
          playlist := shuffled
          currentSongIndex := jsOrZero (jsFindIndex (sameId currentSong) shuffled) }
      else
        let currentSong := getSong? st.playlist st.currentSongIndex
        { st with
          playlist := st.originalPlaylist
          currentSongIndex :=
            jsOrZero (jsFindIndex (sameId currentSong) st.originalPlaylist) }
    ({ room with state := st }, true)

/-- The `toggleLoop` socket handler (routes.ts lines 535-555): same
authority rule as shuffle; flips `isLooped`. -/
def toggleLoop (userId : String) (room : Room) : Room × Bool :=
  let st := room.state
  if st.createdBy != "system" && st.createdBy != userId then
    (room, false)
  else
    ({ room with state := { st with isLooped := !st.isLooped } }, true)

/-- The `reorderSongs` socket handler (routes.ts lines 558-615): same
authority rule as shuffle; rejects out-of-range indices; moves the
track, copies the result into `originalPlaylist`, and adjusts the
cursor to keep pointing at the same logical track. The broadcast (when
one goes out) always carries `preserveAudioState: true`. -/
def reorderSongs (userId : String) (fromIndex toIndex : Int) (room : Room) :
    Room × Bool :=
  let st := room.state
  if st.createdBy != "system" && st.createdBy != userId then
    (room, false)
  else
    if 0 ≤ fromIndex ∧ fromIndex < (st.playlist.length : Int) ∧
        0 ≤ toIndex ∧ toIndex < (st.playlist.length : Int) then
      let f := fromIndex.toNat
      let t := toIndex.toNat
      let movedSong := st.playlist.getD f default
      let pl := (st.playlist.eraseIdx f).insertIdx t movedSong
      let cur := st.currentSongIndex
      let cur2 :=
        if cur = fromIndex then toIndex
        else if fromIndex < cur ∧ toIndex ≥ cur then cur - 1
        else if fromIndex > cur ∧ toIndex ≤ cur then cur + 1
        else cur
      ({ room with state := { st with
          playlist := pl
          originalPlaylist := pl
          currentSongIndex := cur2 } }, true)
    else
      (room, false)

/-- The `nextSong` socket handler (routes.ts lines 656-684): creator-only,
never on the system room; with a non-empty playlist advances the cursor
(wrapping), zeroes `pausedAt` and stamps `playbackStartTime := now`.
`isPlaying` is NOT touched. -/
def nextSong (userId : String) (now : ℚ) (room : Room) : Room × Bool :=
  let st := room.state
  if st.createdBy != userId || st.createdBy == "system" then
    (room, false)
  else
    if st.playlist.length > 0 then
      let len : Int := st.playlist.length
      let cur :=
        if st.isLooped && st.currentSongIndex == len - 1 then 0
        else (st.currentSongIndex + 1) % len
      ({ room with state := { st with
          currentSongIndex := cur
          pausedAt := 0
          playbackStartTime := now } }, true)
    else
      (room, false)

/-- The `previousSong` socket handler (routes.ts lines 687-713): mirror of
`nextSong`, moving the cursor back one with wrap to the last index.
`isPlaying` is NOT touched. -/
def previousSong (userId : String) (now : ℚ) (room : Room) : Room × Bool :=
  let st := room.state
  if st.createdBy != userId || st.createdBy == "system" then
    (room, false)
  else
    if st.playlist.length > 0 then
      let cur :=
        if st.currentSongIndex > 0 then st.currentSongIndex - 1
        else (st.playlist.length : Int) - 1
      ({ room with state := { st with
          currentSongIndex := cur
          pausedAt := 0
          playbackStartTime := now } }, true)
    else
      (room, false)

/-- The body of the auto-advance `setInterval` (routes.ts lines 759-792)
for one room: only system rooms advance; requires `isPlaying`, a
non-empty playlist and a defined `playlist[currentSongIndex]`; advances
when the computed position reaches the track duration. -/
def autoAdvance (now : ℚ) (room : Room) : Room × Bool :=
  let st := room.state
  if st.createdBy != "system" then
    (room, false)
  else
    match getSong? st.playlist st.currentSongIndex with
    | none => (room, false)
    | some currentSong =>
      if st.isPlaying && st.playlist.length > 0 then
        let currentPosition := st.pausedAt + (now - st.playbackStartTime) / 1000
        if (currentSong.durationSeconds : ℚ) ≤ currentPosition then
          ({ room with state := { st with
              currentSongIndex := (st.currentSongIndex + 1) % (st.playlist.length : Int)
              pausedAt := 0
              playbackStartTime := now } }, true)
        else
          (room, false)
      else
        (room, false)

/-- The `disconnect` handler (routes.ts lines 715-755), restricted to its
effect on the departing user's room: the listener entry is removed; vote
tallies and playback state are NOT touched; if the room empties and is
not the system room, the whole room is torn down (`none`). -/
def disconnect (userId : String) (room : Room) : Option Room :=
  if room.listeners.contains userId then
    let remaining := room.listeners.filter (fun y => y != userId)
    if remaining.isEmpty && room.state.createdBy != "system" then
      none
    else
      some { room with listeners := remaining }
  else
    some room

/-! ## Concrete inputs used by the witnesses and counterexamples below -/

/-- A sample track. -/
def songA : Song := ⟨"a", "", 10⟩

/-- A second sample track. -/
def songB : Song := ⟨"b", "", 10⟩

/-- A third sample track. -/
def songX : Song := ⟨"x", "", 10⟩

/-- A fixed random stream for the shuffle (always draws 0). -/
def zeroRnd : Nat → Nat := fun _ => 0

/-- The freshly initialized system (public) room with one listener `u`. -/
def pubRoom : Room := ⟨initialState "system", ["u"], []⟩

/-- A freshly initialized private room created by `c`, with `c` listening. -/
def privRoom : Room := ⟨initialState "c", ["c"], []⟩

/-- `pubRoom` after `Add(songA)` at time 0: playlist `[songA]`, cursor 0,
playing, a fresh empty tally for `"a"`. -/
def bug1 : Room := (addToPlaylist songA 0 pubRoom).1

/-- `bug1` after listener `u` votes `"a"` off (1 listener, quorum 1): the
playlist empties but `isPlaying` stays `true`. -/
def bug2 : Room := (voteSong "u" "a" bug1).1

/-- `bug2` after toggling shuffle on the EMPTY playlist: `findIndex` on the
empty list returns `-1`, `|| 0` does not floor it, so the cursor becomes
`-1`. -/
def bug3 : Room := (toggleShuffle "u" zeroRnd bug2).1

/-- `bug3` after `Add(songB)` at time 0: the playlist is non-empty again but
(because `isPlaying` was still `true`) the cursor is not reset and stays
`-1`. -/
def bug4 : Room := (addToPlaylist songB 0 bug3).1

/-- `pubRoom` after `Add(songA)`. -/
def sh1 : Room := (addToPlaylist songA 0 pubRoom).1

/-- `sh1` after `Add(songB)`: playlist and original both `[songA, songB]`. -/
def sh2 : Room := (addToPlaylist songB 0 sh1).1

/-- `sh2` after `u` votes `"a"` off: playlist `[songB]` but originalPlaylist
still `[songA, songB]`. -/
def sh3 : Room := (voteSong "u" "a" sh2).1

/-- `privRoom` after `Add(songA)` at time 0. -/
def pv1 : Room := (addToPlaylist songA 0 privRoom).1

/-- `pv1` after `Add(songB)`. -/
def pv2 : Room := (addToPlaylist songB 0 pv1).1

/-- `pv2` after the creator pauses at wall-clock 5000ms: `pausedAt` becomes
5 seconds. -/
def pv3 : Room := (togglePlayPause "c" 5000 pv2).1

/-- `pv3` after the creator resumes at wall-clock 6000ms. -/
def pv4 : Room := (togglePlayPause "c" 6000 pv3).1

/-- `pv4` after the creator votes `"a"` off (quorum 1). -/
def pv5 : Room := (voteSong "c" "a" pv4).1

/-- `pv5` after the creator votes `"b"` off too: the playlist is empty but
the room is still marked playing with `pausedAt = 5`. -/
def pv6 : Room := (voteSong "c" "b" pv5).1

/-- `pv6` after `Add(songX)` at wall-clock 7000ms: because `isPlaying` is
still `true`, none of the playback fields are reset. -/
def pv7 : Room := (addToPlaylist songX 7000 pv6).1

/-- A system room with five listeners. -/
def dep0 : Room := ⟨initialState "system", ["u1", "u2", "u3", "u4", "u5"], []⟩

/-- `dep0` after `Add(songA)`. -/
def dep1 : Room := (addToPlaylist songA 0 dep0).1

/-- `dep1` after `u1` votes `"a"` (1 of quorum 3). -/
def dep2 : Room := (voteSong "u1" "a" dep1).1

/-- `dep2` after `u2` votes `"a"` (2 of quorum 3: not removed). -/
def dep3 : Room := (voteSong "u2" "a" dep2).1

/-- A system room in which all three listeners already voted against the
room's single track (such tallies arise when listeners leave after
voting: the tally was built while the room had more listeners). -/
def w10 : Room :=
  ⟨{ playlist := [songA], currentSongIndex := 0, isPlaying := true,
     playbackStartTime := 0, pausedAt := 0, createdBy := "system",
     isShuffled := false, isLooped := false, originalPlaylist := [songA] },
   ["u1", "u2", "u3"], [("a", ["u1", "u2", "u3"])]⟩

/-! ## Helper lemmas -/

/-- Deleting a key from the vote map makes subsequent lookups of that key
return `none`. -/
theorem mapGet?_mapDelete (m : List (String × List String)) (k : String) :
    mapGet? (mapDelete m k) k = none := by
  induction m with
  | nil => rfl
  | cons p t ih =>
    by_cases h : p.1 = k
    · have hd : mapDelete (p :: t) k = mapDelete t k := by
        simp [mapDelete, List.filter_cons, h]
      rw [hd]
      exact ih
    · have hd : mapGet? (mapDelete (p :: t) k) k = mapGet? (mapDelete t k) k := by
        simp [mapDelete, mapGet?, List.filter_cons, List.find?_cons, h]
      rw [hd]
      exact ih

/-- A track id occurs in a playlist's id list iff some track of the
playlist carries it. -/
theorem mem_playlistIds_iff_any (l : List Song) (sid : String) :
    sid ∈ playlistIds l ↔ l.any (fun s => s.id == sid) = true := by
  simp only [playlistIds, List.any_eq_true, List.mem_map, beq_iff_eq]

/-! ## Claims -/

/-- Claim C1 (code bug): the cursor invariant `0 ≤ currentSongIndex <
playlist.length` is violated by a reachable mutation sequence on the
public room with one listener: `Add(songA)`; vote `songA` off (quorum 1,
playlist empties, `isPlaying` stays true); `toggleShuffle` on the empty
playlist (`findIndex` misses, returning `-1`, and the source's `|| 0`
does not floor it because `-1` is truthy); `Add(songB)` (the cursor
reset is skipped since `isPlaying` is still true). The resulting room
has a non-empty playlist and cursor `-1`. -/
theorem cursor_invariant_violated_by_empty_shuffle :
    playlistIds bug4.state.playlist = ["b"] ∧
    bug4.state.currentSongIndex = -1 := by decide

/-- Claim C2 (counterexample): on reaching the vote threshold the track is
spliced out of `playlist` ONLY; contrary to the claim, it is NOT removed
from `originalPlaylist`: after `u` votes the only track of `bug1` off,
`playlist` is empty but `originalPlaylist` still holds `songA`. -/
theorem vote_removal_leaves_originalPlaylist :
    (voteSong "u" "a" bug1).1.state.playlist = [] ∧
    (voteSong "u" "a" bug1).1.state.originalPlaylist = [songA] ∧
    (voteSong "u" "a" bug1).2.removalBroadcast = true := by decide

/-- Claim C2 (amended): when a vote event reaches the threshold and the
track is present at index `i` of the playlist, the Vote operation
removes the track from `playlist` (but leaves `originalPlaylist`
unchanged), discards the track's tally, decrements the cursor with
floor 0 when the removed index was at or before it, and broadcasts a
full snapshot. -/
theorem vote_removal_spec (room : Room) (u sid : String) (vs : List String) (i : Nat)
    (h1 : mapGet? room.votes sid = some vs)
    (h2 : requiredVotes room.listeners.length ≤ (toggledVotes vs u).length)
    (h3 : room.state.playlist.findIdx? (fun s => s.id == sid) = some i)
    (h4 : 0 ≤ room.state.currentSongIndex) :
    (voteSong u sid room).1.state.playlist = room.state.playlist.eraseIdx i ∧
    (voteSong u sid room).1.state.originalPlaylist = room.state.originalPlaylist ∧
    mapGet? (voteSong u sid room).1.votes sid = none ∧
    (voteSong u sid room).1.state.currentSongIndex =
      (if (i : Int) ≤ room.state.currentSongIndex then
        max 0 (room.state.currentSongIndex - 1)
       else room.state.currentSongIndex) ∧
    (voteSong u sid room).2.removalBroadcast = true := by
  simp only [voteSong, h1, ge_iff_le, h2, if_true, h3]
  refine ⟨trivial, trivial, mapGet?_mapDelete _ _, ?_, trivial⟩
  by_cases hle : (i : Int) ≤ room.state.currentSongIndex <;>
    by_cases hpos : room.state.currentSongIndex > 0 <;>
    simp [hle, hpos] <;> omega

/-- Claim C2 (witness): instantiation of `vote_removal_spec` on `bug1`
(one listener, one track, quorum 1). -/
theorem vote_removal_spec_witness :
    (voteSong "u" "a" bug1).1.state.playlist = bug1.state.playlist.eraseIdx 0 ∧
    (voteSong "u" "a" bug1).1.state.originalPlaylist = bug1.state.originalPlaylist ∧
    mapGet? (voteSong "u" "a" bug1).1.votes "a" = none ∧
    (voteSong "u" "a" bug1).1.state.currentSongIndex =
      (if ((0 : Nat) : Int) ≤ bug1.state.currentSongIndex then
        max 0 (bug1.state.currentSongIndex - 1)
       else bug1.state.currentSongIndex) ∧
    (voteSong "u" "a" bug1).2.removalBroadcast = true :=
  vote_removal_spec bug1 "u" "a" [] 0 (by decide) (by decide) (by decide) (by decide)

/-- Claim C3 (counterexample): shuffle-then-unshuffle does not restore the
pre-shuffle playlist when a vote removal happened before the shuffle:
`sh3` has playlist `[songB]` (track `a` was voted off) but
originalPlaylist `[songA, songB]`, and disabling shuffle restores from
`originalPlaylist`, yielding `[songA, songB]` ≠ `[songB]`. -/
theorem shuffle_unshuffle_differs_after_vote_removal :
    sh3.state.isShuffled = false ∧
    sh3.state.playlist = [songB] ∧
    (toggleShuffle "u" zeroRnd (toggleShuffle "u" zeroRnd sh3).1).1.state.playlist =
      [songA, songB] := by decide

/-- Claim C3 (amended): enabling and then disabling shuffle (no mutation in
between) sets `playlist` to a copy of `originalPlaylist`; when
`playlist = originalPlaylist` held before the shuffle (true whenever no
track has been vote-removed since the last add/reorder), this restores
the pre-shuffle playlist element-wise, for every random stream. -/
theorem shuffle_unshuffle_restores (room : Room) (u : String) (rnd : Nat → Nat)
    (hauth : room.state.createdBy = "system" ∨ room.state.createdBy = u)
    (hsh : room.state.isShuffled = false)
    (heq : room.state.playlist = room.state.originalPlaylist) :
    (toggleShuffle u rnd (toggleShuffle u rnd room).1).1.state.playlist =
      room.state.playlist := by
  have hc : (room.state.createdBy != "system" && room.state.createdBy != u) = false := by
    rcases hauth with h | h <;> simp [h]
  simp [toggleShuffle, hc, hsh, heq]

/-- Claim C3 (witness): instantiation of `shuffle_unshuffle_restores` on
`sh2` (playlist = originalPlaylist = `[songA, songB]`). -/
theorem shuffle_unshuffle_restores_witness :
    (toggleShuffle "u" zeroRnd (toggleShuffle "u" zeroRnd sh2).1).1.state.playlist =
      sh2.state.playlist :=
  shuffle_unshuffle_restores sh2 "u" zeroRnd (Or.inl (by decide)) (by decide) (by decide)

/-- Claim C4 (counterexample): an authorized manual Next on a paused room
broadcasts and advances, but does NOT set `isPlaying` to true as the
claim states: `pv3` is paused (`isPlaying = false`) and after the
creator's `nextSong` it is still paused. -/
theorem next_leaves_playing_unchanged :
    pv3.state.isPlaying = false ∧
    pv3.state.createdBy = "c" ∧
    (nextSong "c" 6000 pv3).2 = true ∧
    (nextSong "c" 6000 pv3).1.state.isPlaying = false := by decide

/-- Claim C4 (amended): an authorized manual Next/Previous on a non-empty
playlist moves the cursor ±1 with wraparound, zeroes `pausedAt`
(offsetSeconds) and stamps `playbackStartTime` (the anchor) to now, and
broadcasts — but leaves `isPlaying` unchanged (it does not force
playing). -/
theorem advance_spec (room : Room) (u : String) (now : ℚ)
    (h1 : room.state.createdBy = u) (h2 : room.state.createdBy ≠ "system")
    (h3 : room.state.playlist.length > 0) :
    (nextSong u now room).1.state.currentSongIndex =
      (room.state.currentSongIndex + 1) % (room.state.playlist.length : Int) ∧
    (nextSong u now room).1.state.pausedAt = 0 ∧
    (nextSong u now room).1.state.playbackStartTime = now ∧
    (nextSong u now room).1.state.isPlaying = room.state.isPlaying ∧
    (nextSong u now room).2 = true ∧
    (previousSong u now room).1.state.currentSongIndex =
      (if room.state.currentSongIndex > 0 then room.state.currentSongIndex - 1
       else (room.state.playlist.length : Int) - 1) ∧
    (previousSong u now room).1.state.pausedAt = 0 ∧
    (previousSong u now room).1.state.playbackStartTime = now ∧
    (previousSong u now room).1.state.isPlaying = room.state.isPlaying ∧
    (previousSong u now room).2 = true := by
  subst h1
  have hc : (room.state.createdBy != room.state.createdBy ||
      room.state.createdBy == "system") = false := by
    simp [h2]
  have hzero : (((room.state.playlist.length : Int) - 1 + 1) %
      (room.state.playlist.length : Int)) = 0 := by
    have hs : ((room.state.playlist.length : Int) - 1 + 1) =
        (room.state.playlist.length : Int) := by ring
    rw [hs, Int.emod_self]
  refine ⟨?_, ?_, ?_, ?_, ?_, ?_, ?_, ?_, ?_, ?_⟩ <;>
    simp [nextSong, previousSong, hc, h2, h3]
  intro hl he
  rw [he, hzero]

/-- Claim C4 (witness): instantiation of `advance_spec` on `pv2` (private
room of `c`, two tracks). -/
theorem advance_spec_witness :
    (nextSong "c" 9000 pv2).1.state.currentSongIndex =
      (pv2.state.currentSongIndex + 1) % (pv2.state.playlist.length : Int) ∧
    (nextSong "c" 9000 pv2).1.state.pausedAt = 0 ∧
    (nextSong "c" 9000 pv2).1.state.playbackStartTime = 9000 ∧
    (nextSong "c" 9000 pv2).1.state.isPlaying = pv2.state.isPlaying ∧
    (nextSong "c" 9000 pv2).2 = true ∧
    (previousSong "c" 9000 pv2).1.state.currentSongIndex =
      (if pv2.state.currentSongIndex > 0 then pv2.state.currentSongIndex - 1
       else (pv2.state.playlist.length : Int) - 1) ∧
    (previousSong "c" 9000 pv2).1.state.pausedAt = 0 ∧
    (previousSong "c" 9000 pv2).1.state.playbackStartTime = 9000 ∧
    (previousSong "c" 9000 pv2).1.state.isPlaying = pv2.state.isPlaying ∧
    (previousSong "c" 9000 pv2).2 = true :=
  advance_spec pv2 "c" 9000 (by decide) (by decide) (by decide)

/-- Claim C5 (counterexample): adding to a room whose playlist is empty
does NOT always reset the playback fields. `pv6` is reachable, has an
empty playlist but is still marked playing with `pausedAt` equal to the
5 seconds accumulated earlier; after `Add(songX)` at wall-clock 7000ms
the anchor is still the old 6000 (not now = 7000) and `pausedAt` is
still the old nonzero accumulated offset (not 0), because the reset is
gated on `!isPlaying`. -/
theorem add_to_empty_playing_room_keeps_clock :
    pv6.state.playlist = [] ∧
    pv6.state.isPlaying = true ∧
    pv7.state.playlist.length = 1 ∧
    pv7.state.playbackStartTime = 6000 ∧
    ((6000 : ℚ) ≠ 7000) ∧
    pv7.state.pausedAt = 0 + (5000 - 0) / 1000 ∧
    ((0 : ℚ) + (5000 - 0) / 1000 ≠ 0) :=
  ⟨by decide, by decide, by decide, by decide, by decide, rfl, by norm_num⟩

/-- Claim C5 (amended): adding a track to a room whose playlist is empty
AND which is not marked playing sets `cursor = 0`, `playing = true`,
`offsetSeconds = 0` and anchors the wall clock to now (when the empty
room is still spuriously marked playing, these fields are left alone);
adding a track whose id is already present is rejected with an error to
the sender and leaves the whole room state unchanged. -/
theorem add_spec (room : Room) (song : Song) (now : ℚ) :
    (room.state.playlist = [] → room.state.isPlaying = false →
      (addToPlaylist song now room).1.state.playlist = [song] ∧
      (addToPlaylist song now room).1.state.currentSongIndex = 0 ∧
      (addToPlaylist song now room).1.state.isPlaying = true ∧
      (addToPlaylist song now room).1.state.pausedAt = 0 ∧
      (addToPlaylist song now room).1.state.playbackStartTime = now ∧
      (addToPlaylist song now room).2 = AddEmit.broadcast true) ∧
    (room.state.playlist.any (fun s => s.id == song.id) = true →
      addToPlaylist song now room = (room, AddEmit.duplicateError)) := by
  constructor
  · intro he hp
    simp [addToPlaylist, he, hp]
  · intro hd
    simp [addToPlaylist, hd]

/-- Claim C5 (witness): instantiation of `add_spec`: adding `songA` to the
fresh (empty, not playing) private room starts playback; adding `songA`
again to `bug1` (which already holds it) is rejected unchanged. -/
theorem add_spec_witness :
    ((addToPlaylist songA 0 privRoom).1.state.playlist = [songA] ∧
     (addToPlaylist songA 0 privRoom).1.state.currentSongIndex = 0 ∧
     (addToPlaylist songA 0 privRoom).1.state.isPlaying = true ∧
     (addToPlaylist songA 0 privRoom).1.state.pausedAt = 0 ∧
     (addToPlaylist songA 0 privRoom).1.state.playbackStartTime = 0 ∧
     (addToPlaylist songA 0 privRoom).2 = AddEmit.broadcast true) ∧
    addToPlaylist songA 5 bug1 = (bug1, AddEmit.duplicateError) :=
  ⟨(add_spec privRoom songA 0).1 (by decide) (by decide),
   (add_spec bug1 songA 5).2 (by decide)⟩

/-- Claim C6 (counterexample): adding `songB` to `sh1` leaves the current
track (`songA` at cursor 0) unchanged, yet the broadcast still carries
`preserveAudioState = true` — the hint is set unconditionally, not only
when the current track identity changes. -/
theorem add_sets_preserve_hint_without_track_change :
    getSong? sh1.state.playlist sh1.state.currentSongIndex = some songA ∧
    getSong? (addToPlaylist songB 5 sh1).1.state.playlist
      (addToPlaylist songB 5 sh1).1.state.currentSongIndex = some songA ∧
    (addToPlaylist songB 5 sh1).2 = AddEmit.broadcast true := by decide

/-- Claim C6 (amended): every successful (non-duplicate) Add broadcast
carries `preserveAudioState = true` unconditionally, whether or not the
current track identity changes. -/
theorem add_broadcast_always_preserves (room : Room) (song : Song) (now : ℚ)
    (h : room.state.playlist.any (fun s => s.id == song.id) = false) :
    (addToPlaylist song now room).2 = AddEmit.broadcast true := by
  simp [addToPlaylist, h]

/-- Claim C6 (witness): instantiation of `add_broadcast_always_preserves`
on `sh1` with the fresh track `songB`. -/
theorem add_broadcast_always_preserves_witness :
    (addToPlaylist songB 5 sh1).2 = AddEmit.broadcast true :=
  add_broadcast_always_preserves sh1 songB 5 (by decide)

/-- Claim C7 (confirmed): `togglePlayPause` is a silent no-op (state
unchanged, nothing broadcast) unless the requester is the room's
creator and the room is not the system room; when authorized, pausing
folds the elapsed seconds `(now - playbackStartTime) / 1000` into
`pausedAt` (keeping the anchor), and resuming stamps the anchor
`playbackStartTime := now` (keeping `pausedAt`); both broadcast. -/
theorem togglePlayPause_spec (room : Room) (u : String) (now : ℚ) :
    (¬ (room.state.createdBy = u ∧ room.state.createdBy ≠ "system") →
      togglePlayPause u now room = (room, false)) ∧
    (room.state.createdBy = u → room.state.createdBy ≠ "system" →
      (room.state.isPlaying = true →
        (togglePlayPause u now room).1.state.isPlaying = false ∧
        (togglePlayPause u now room).1.state.pausedAt =
          room.state.pausedAt + (now - room.state.playbackStartTime) / 1000 ∧
        (togglePlayPause u now room).1.state.playbackStartTime =
          room.state.playbackStartTime ∧
        (togglePlayPause u now room).2 = true) ∧
      (room.state.isPlaying = false →
        (togglePlayPause u now room).1.state.isPlaying = true ∧
        (togglePlayPause u now room).1.state.playbackStartTime = now ∧
        (togglePlayPause u now room).1.state.pausedAt = room.state.pausedAt ∧
        (togglePlayPause u now room).2 = true)) := by
  refine ⟨?_, ?_⟩
  · intro h
    have hc : (room.state.createdBy != u || room.state.createdBy == "system") = true := by
      rcases not_and_or.mp h with h1 | h1
      · simp [bne_iff_ne, h1]
      · have h1' : room.state.createdBy = "system" := not_not.mp h1
        simp [h1']
    simp [togglePlayPause, hc]
  · intro h1 h2
    subst h1
    have hc : (room.state.createdBy != room.state.createdBy ||
        room.state.createdBy == "system") = false := by
      simp [h2]
    constructor
    · intro hp
      simp [togglePlayPause, hc, hp, h2]
    · intro hp
      simp [togglePlayPause, hc, hp, h2]

/-- Claim C7 (witness): instantiation of `togglePlayPause_spec`: a
non-creator's toggle on `pv2` is a silent no-op; the creator pausing
`pv2` at 5000ms folds the elapsed time into `pausedAt`; the creator
resuming the paused `pv3` at 6000ms stamps the anchor. -/
theorem togglePlayPause_spec_witness :
    togglePlayPause "x" 0 pv2 = (pv2, false) ∧
    (togglePlayPause "c" 5000 pv2).1.state.isPlaying = false ∧
    (togglePlayPause "c" 5000 pv2).1.state.pausedAt =
      pv2.state.pausedAt + (5000 - pv2.state.playbackStartTime) / 1000 ∧
    (togglePlayPause "c" 5000 pv2).2 = true ∧
    (togglePlayPause "c" 6000 pv3).1.state.isPlaying = true ∧
    (togglePlayPause "c" 6000 pv3).1.state.playbackStartTime = 6000 :=
  ⟨(togglePlayPause_spec pv2 "x" 0).1 (by decide),
   ((togglePlayPause_spec pv2 "c" 5000).2 (by decide) (by decide)).1 (by decide) |>.1,
   ((togglePlayPause_spec pv2 "c" 5000).2 (by decide) (by decide)).1 (by decide) |>.2.1,
   ((togglePlayPause_spec pv2 "c" 5000).2 (by decide) (by decide)).1 (by decide) |>.2.2.2,
   ((togglePlayPause_spec pv3 "c" 6000).2 (by decide) (by decide)).2 (by decide) |>.1,
   ((togglePlayPause_spec pv3 "c" 6000).2 (by decide) (by decide)).2 (by decide) |>.2.1⟩

/-- Claim C8 (counterexample): `toggleLoop` on a room with an empty
playlist is NOT a no-op: on the fresh private room (empty playlist) the
creator's toggle flips `isLooped` from false to true. -/
theorem toggleLoop_not_noop_on_empty :
    privRoom.state.playlist = [] ∧
    privRoom.state.isLooped = false ∧
    (toggleLoop "c" privRoom).1.state.isLooped = true := by decide

/-- Claim C8 (amended): on an empty playlist, Next, Previous and
auto-advance are no-ops (no state change, no broadcast); but
TogglePlayPause, ToggleShuffle and ToggleLoop are NOT gated on playlist
emptiness — when authorized they still flip their flags. -/
theorem empty_playlist_ops (room : Room) (u : String) (now : ℚ) (rnd : Nat → Nat)
    (he : room.state.playlist = []) :
    nextSong u now room = (room, false) ∧
    previousSong u now room = (room, false) ∧
    autoAdvance now room = (room, false) ∧
    (room.state.createdBy = u → room.state.createdBy ≠ "system" →
      (togglePlayPause u now room).1.state.isPlaying = !room.state.isPlaying) ∧
    (room.state.createdBy = "system" ∨ room.state.createdBy = u →
      (toggleLoop u room).1.state.isLooped = !room.state.isLooped ∧
      (toggleShuffle u rnd room).1.state.isShuffled = !room.state.isShuffled) := by
  refine ⟨?_, ?_, ?_, ?_, ?_⟩
  · simp only [nextSong, he]
    split
    · rfl
    · simp
  · simp only [previousSong, he]
    split
    · rfl
    · simp
  · simp only [autoAdvance, he, getSong?]
    split
    · rfl
    · simp
  · intro h1 h2
    subst h1
    have hc : (room.state.createdBy != room.state.createdBy ||
        room.state.createdBy == "system") = false := by simp [h2]
    by_cases hp : room.state.isPlaying <;> simp [togglePlayPause, hc, h2, hp]
  · intro hauth
    have hc : (room.state.createdBy != "system" && room.state.createdBy != u) = false := by
      rcases hauth with h | h <;> simp [h]
    constructor
    · simp [toggleLoop, hc]
    · by_cases hs : room.state.isShuffled <;> simp [toggleShuffle, hc, hs]

/-- Claim C8 (witness): instantiation of `empty_playlist_ops` on the fresh
empty private room with its creator as requester. -/
theorem empty_playlist_ops_witness :
    nextSong "c" 0 privRoom = (privRoom, false) ∧
    previousSong "c" 0 privRoom = (privRoom, false) ∧
    autoAdvance 0 privRoom = (privRoom, false) ∧
    (togglePlayPause "c" 0 privRoom).1.state.isPlaying = true ∧
    (toggleLoop "c" privRoom).1.state.isLooped = true ∧
    (toggleShuffle "c" zeroRnd privRoom).1.state.isShuffled = true :=
  ⟨(empty_playlist_ops privRoom "c" 0 zeroRnd (by decide)).1,
   (empty_playlist_ops privRoom "c" 0 zeroRnd (by decide)).2.1,
   (empty_playlist_ops privRoom "c" 0 zeroRnd (by decide)).2.2.1,
   (empty_playlist_ops privRoom "c" 0 zeroRnd (by decide)).2.2.2.1 (by decide) (by decide),
   ((empty_playlist_ops privRoom "c" 0 zeroRnd (by decide)).2.2.2.2 (Or.inr (by decide))).1,
   ((empty_playlist_ops privRoom "c" 0 zeroRnd (by decide)).2.2.2.2 (Or.inr (by decide))).2⟩

/-- Claim C9 (counterexample): a listener departure that passively crosses
the vote threshold does NOT cause removal. In `dep3`, track `a` has 2
distinct votes and 5 listeners (quorum 3); after `u3` disconnects there
are 4 listeners, quorum 2 ≤ 2 recorded votes, yet the track is still in
the playlist and its tally is untouched. -/
theorem threshold_crossed_on_departure_without_removal :
    playlistIds dep3.state.playlist = ["a"] ∧
    mapGet? dep3.votes "a" = some ["u1", "u2"] ∧
    (disconnect "u3" dep3).isSome = true ∧
    playlistIds ((disconnect "u3" dep3).getD dep0).state.playlist = ["a"] ∧
    mapGet? ((disconnect "u3" dep3).getD dep0).votes "a" = some ["u1", "u2"] ∧
    requiredVotes ((disconnect "u3" dep3).getD dep0).listeners.length ≤ 2 := by decide

/-- Claim C9 (amended): a track is removed only at a vote event, exactly
when the post-toggle distinct-voter count reaches
`ceil(listenerCount/2)` computed from the current listener count, never
before: a vote event below threshold leaves the playback state
untouched, and a listener departure by itself never removes a track or
re-checks tallies (a passively crossed threshold only takes effect at
the next vote event on that track). -/
theorem departure_does_not_remove (room : Room) (u v sid : String) (vs : List String)
    (h1 : mapGet? room.votes sid = some vs)
    (h2 : (toggledVotes vs u).length < requiredVotes room.listeners.length) :
    (voteSong u sid room).1.state = room.state ∧
    (voteSong u sid room).2.removalBroadcast = false ∧
    (∀ r2, disconnect v room = some r2 →
      r2.state = room.state ∧ r2.votes = room.votes) := by
  have h2' : ¬ requiredVotes room.listeners.length ≤ (toggledVotes vs u).length :=
    not_le.mpr h2
  refine ⟨?_, ?_, ?_⟩
  · simp [voteSong, h1, h2']
  · simp [voteSong, h1, h2']
  · intro r2 h
    simp only [disconnect] at h
    split at h
    · split at h
      · cases h
      · cases h
        exact ⟨rfl, rfl⟩
    · cases h
      exact ⟨rfl, rfl⟩

/-- Claim C9 (witness): instantiation of `departure_does_not_remove` on
`dep1` (5 listeners, quorum 3): `u1`'s single vote does not remove, and
`u2`'s departure leaves playback state and tallies unchanged. -/
theorem departure_does_not_remove_witness :
    (voteSong "u1" "a" dep1).1.state = dep1.state ∧
    (voteSong "u1" "a" dep1).2.removalBroadcast = false ∧
    ((disconnect "u2" dep1).getD dep1).state = dep1.state ∧
    ((disconnect "u2" dep1).getD dep1).votes = dep1.votes :=
  ⟨(departure_does_not_remove dep1 "u1" "u2" "a" [] (by decide) (by decide)).1,
   (departure_does_not_remove dep1 "u1" "u2" "a" [] (by decide) (by decide)).2.1,
   ((departure_does_not_remove dep1 "u1" "u2" "a" [] (by decide) (by decide)).2.2
     ((disconnect "u2" dep1).getD dep1) (by decide)).1,
   ((departure_does_not_remove dep1 "u1" "u2" "a" [] (by decide) (by decide)).2.2
     ((disconnect "u2" dep1).getD dep1) (by decide)).2⟩

set_option maxRecDepth 4000 in
/-- Claim C10 (confirmed): for every vote event on a track with an
existing tally (including a vote that removes the voter's own earlier
vote), the removal check runs on the post-toggle tally: the playlist
shrinks (i.e. the track is removed) if and only if the post-toggle
distinct-vote count is at least `ceil(current listenerCount / 2)` and
the track is present in the playlist. -/
theorem vote_toggle_then_check (room : Room) (u sid : String) (vs : List String)
    (h1 : mapGet? room.votes sid = some vs) :
    (voteSong u sid room).1.state.playlist.length < room.state.playlist.length ↔
      (requiredVotes room.listeners.length ≤ (toggledVotes vs u).length ∧
        sid ∈ playlistIds room.state.playlist) := by
  simp only [voteSong, h1]
  by_cases h2 : requiredVotes room.listeners.length ≤ (toggledVotes vs u).length
  · simp only [ge_iff_le, h2, if_true, true_and]
    cases hf : room.state.playlist.findIdx? (fun s => s.id == sid) with
    | some i =>
      have hi : i < room.state.playlist.length :=
        (List.findIdx?_eq_some_iff_findIdx_eq.mp hf).1
      have hmem : sid ∈ playlistIds room.state.playlist := by
        rw [mem_playlistIds_iff_any]
        rw [← List.findIdx?_isSome, hf]
        rfl
      have hlen : (room.state.playlist.eraseIdx i).length =
          room.state.playlist.length - 1 := List.length_eraseIdx_of_lt hi
      simp only [hlen]
      constructor
      · intro _
        exact hmem
      · intro _
        omega
    | none =>
      have hnone : ¬ sid ∈ playlistIds room.state.playlist := by
        rw [mem_playlistIds_iff_any]
        intro hany
        rw [← List.findIdx?_isSome, hf] at hany
        simp at hany
      simp [hnone]
  · simp [h2]

/-- Claim C10 (witness): instantiation of `vote_toggle_then_check` on
`w10`, where `u1` already voted: the vote event REMOVES `u1`'s vote,
yet the post-toggle count (2) still meets the shrunken quorum
(`ceil(3/2) = 2`), so the un-vote itself removes the track. -/
theorem vote_toggle_then_check_witness :
    setHas ["u1", "u2", "u3"] "u1" = true ∧
    (voteSong "u1" "a" w10).1.state.playlist.length < w10.state.playlist.length :=
  ⟨by decide,
   (vote_toggle_then_check w10 "u1" "a" ["u1", "u2", "u3"] (by decide)).mpr (by decide)⟩
